import Mathlib

/-!
Verification of the strategy-configuration compiler and response normalizer
of the mmcopilot-mcp server (src/main.py).

The embedding models JSON values, Python dict/truthiness semantics, the
payload compiler of create_scalping_strategy (src/main.py lines 165-240),
its response handling (lines 249-334), and the query payload of
get_my_strategies (lines 367-377).
-/

/-- JSON values as produced by response.json() and consumed by the tool.
Numbers are modelled as integers: every number occurring in the payloads
and in the claims is an integer, and the code performs no arithmetic on
response numbers, only carries them verbatim. -/
inductive Json where
  | null
  | bool (b : Bool)
  | num (n : Int)
  | str (s : String)
  | arr (xs : List Json)
  | obj (fields : List (String × Json))
deriving Repr

mutual

/-- Python repr() of a JSON value, as used by str() on containers inside
f-strings. String repr uses single quotes; faithful for strings without
quotes or escapes (no claim exercises the escaping corner). -/
def pyRepr : Json → String
  | Json.null => "None"
  | Json.bool true => "True"
  | Json.bool false => "False"
  | Json.num n => toString n
  | Json.str s => "\x27" ++ s ++ "\x27"
  | Json.arr xs => "[" ++ pyReprList xs ++ "]"
  | Json.obj fs => "\x7b" ++ pyReprFields fs ++ "\x7d"

/-- Comma-separated reprs of the elements of a Python list. -/
def pyReprList : List Json → String
  | [] => ""
  | [x] => pyRepr x
  | x :: y :: xs => pyRepr x ++ ", " ++ pyReprList (y :: xs)

/-- Comma-separated key: value reprs of the items of a Python dict. -/
def pyReprFields : List (String × Json) → String
  | [] => ""
  | [(k, v)] => "\x27" ++ k ++ "\x27: " ++ pyRepr v
  | (k, v) :: y :: xs => "\x27" ++ k ++ "\x27: " ++ pyRepr v ++ ", " ++ pyReprFields (y :: xs)

end

/-- Python str() of a JSON value as interpolated by an f-string:
strings are taken verbatim, everything else via repr. -/
def pyStr : Json → String
  | Json.str s => s
  | v => pyRepr v

/-- Python dict.get(key, default): the stored value when the key is
present (even when that value is falsy), the default otherwise. -/
def pyDictGet (fs : List (String × Json)) (k : String) (d : Json) : Json :=
  (fs.lookup k).getD d

/-- Python truthiness of a JSON value: None, False, 0, "", [] and {} are
falsy, everything else truthy. -/
def Json.truthy : Json → Bool
  | Json.null => false
  | Json.bool b => b
  | Json.num n => n != 0
  | Json.str s => !s.isEmpty
  | Json.arr xs => !xs.isEmpty
  | Json.obj fs => !fs.isEmpty

/-- Python equality of a JSON value against the string literal "error"
(api_response.get("status") == "error", src/main.py line 296): only a
string can compare equal to a string. -/
def isErrorLiteral : Json → Bool
  | Json.str s => s == "error"
  | _ => false

/-- The parameter set of the create_scalping_strategy tool
(src/main.py lines 48-107), field names and defaults as in the source.
The two float parameters (jobbing_start_price, jobbing_end_price) are
modelled as integers: their defaults are 0 and the code only carries
them verbatim into the payload, with no arithmetic. -/
structure CreateParams where
  strategy_name : String
  symbol : String
  exchange : String := "NSE"
  segment : String := "EQ"
  contract : String := "NEAR"
  expiry : String := "MONTHLY"
  averaging_points : Int := 100
  avg_points : Option Int := none
  target_points : Int := 100
  max_steps : Int := 50
  quantity : Int := 1
  lot : Int := 1
  side : String := "BUY"
  is_intraday : Bool := true
  intraday_entry_time : String := "9:16"
  intraday_exit_time : String := "15:25"
  required_margin : Int := 100000
  product_type : String := "NRML"
  order_type : String := "Market Order"
  jobbing_start_price : Int := 0
  jobbing_end_price : Int := 0
  average_by : String := "Point"
  target_by : String := "Point"
  maximum_target_steps : Int := 0
  sqroff_on_maximum_steps : Bool := false
  calculate_qty_on_market_jump : Bool := false
  increase_qty_on_avg : Bool := false
  increase_qty : Int := 0
  increase_qty_type : String := "Qty"
  scalping_opening_qty : Int := 0
  no_of_limit_order_retry : Int := 0
  retry_at_every_seconds : Int := 0
  market_order_after_retry : Bool := false
  is_auto_rollover : Bool := false
  rollover_before_days : Int := 0
  rollover_time : String := "0:0"
  reset_cycle_by_master_tpsl : Bool := false
  master_tp_money : Int := 0
  master_sl_money : Int := 0
  reset_cycle_on_positive_mtm : Int := 0
  is_trail_sl : Bool := false
  profit_move : Int := 0
  sl_move : Int := 0
  no_of_trail_sl : Int := 0
  atm : Int := 0
  strike_price : Int := 0
  option_type : String := "CE"
  allow_update_parameters : Bool := true
  is_add_hedge_leg : Bool := false

/-- Alias handling for averaging_points (src/main.py lines 166-167):
if avg_points is not None it overwrites averaging_points. -/
def resolveAveragingPoints (p : CreateParams) : Int :=
  match p.avg_points with
  | some v => v
  | none => p.averaging_points

/-- The payload compiler of create_scalping_strategy
(src/main.py lines 165-240): alias resolution, mix_name derivation,
description templating, and the dict literal of lines 180-240, entries
in source order. -/
def buildPayload (p : CreateParams) : List (String × Json) :=
  let averaging_points := resolveAveragingPoints p
  let mix_name :=
    if p.segment = "EQ" then
      p.symbol ++ " " ++ p.segment ++ " " ++ p.exchange
    else
      p.symbol ++ " " ++ p.segment ++ " " ++ p.contract ++ " " ++ p.expiry
  let short_desc :=
    p.side ++ " " ++ p.symbol ++ " at every " ++ toString averaging_points ++ " points"
  let long_desc :=
    p.side ++ " " ++ p.symbol ++ " at every " ++ toString averaging_points ++
      " points down side and book profit at " ++ toString p.target_points ++ " points."
  [ ("id", Json.str ""),
    ("strategy_name", Json.str p.strategy_name),
    ("short_description", Json.str short_desc),
    ("long_description", Json.str long_desc),
    ("strategy_id", Json.str "YioJhK5IqBULe8fPLMnXaAaC0$aC0$"),
    ("mix_name", Json.str mix_name),
    ("main_exchange", Json.str p.exchange),
    ("main_segment", Json.str p.segment),
    ("main_symbol", Json.str p.symbol),
    ("main_contract", Json.str p.contract),
    ("main_expiry", Json.str p.expiry),
    ("product_type", Json.str p.product_type),
    ("exit_order_product_type", Json.str ""),
    ("qty_type", Json.str "Qty"),
    ("qty", Json.num p.quantity),
    ("lot", Json.num p.lot),
    ("atm", Json.num p.atm),
    ("strike_price", Json.num p.strike_price),
    ("option_type", Json.str p.option_type),
    ("intraday_entry_time", Json.str p.intraday_entry_time),
    ("intraday_exit_time", Json.str p.intraday_exit_time),
    ("is_intraday", Json.bool p.is_intraday),
    ("jobbing_side", Json.str p.side),
    ("jobbing_start_price", Json.num p.jobbing_start_price),
    ("jobbing_end_price", Json.num p.jobbing_end_price),
    ("average_by", Json.str p.average_by),
    ("average_value", Json.num averaging_points),
    ("target_by", Json.str p.target_by),
    ("target", Json.num 0),
    ("intraday_target", Json.num p.target_points),
    ("maximum_steps", Json.num p.max_steps),
    ("maximum_target_steps", Json.num p.maximum_target_steps),
    ("sqroff_on_maximum_steps", Json.bool p.sqroff_on_maximum_steps),
    ("calculate_qty_on_market_jump", Json.bool p.calculate_qty_on_market_jump),
    ("allow_update_parameters", Json.bool p.allow_update_parameters),
    ("order_type", Json.str p.order_type),
    ("no_of_limit_order_retry", Json.num p.no_of_limit_order_retry),
    ("retry_at_every_seconds", Json.num p.retry_at_every_seconds),
    ("market_order_after_retry", Json.bool p.market_order_after_retry),
    ("reset_cycle_by_master_tpsl", Json.bool p.reset_cycle_by_master_tpsl),
    ("rollover_before_days", Json.num p.rollover_before_days),
    ("is_auto_rollover", Json.bool p.is_auto_rollover),
    ("is_add_hedge_leg", Json.bool p.is_add_hedge_leg),
    ("rollover_time", Json.str p.rollover_time),
    ("master_tp_money", Json.num p.master_tp_money),
    ("master_sl_money", Json.num p.master_sl_money),
    ("reset_cycle_on_positive_mtm", Json.num p.reset_cycle_on_positive_mtm),
    ("required_margin", Json.num p.required_margin),
    ("is_trail_sl", Json.bool p.is_trail_sl),
    ("profit_move", Json.num p.profit_move),
    ("sl_move", Json.num p.sl_move),
    ("no_of_trail_sl", Json.num p.no_of_trail_sl),
    ("scalping_opening_qty", Json.num p.scalping_opening_qty),
    ("increase_qty_on_avg", Json.bool p.increase_qty_on_avg),
    ("increase_qty", Json.num p.increase_qty),
    ("increase_qty_type", Json.str p.increase_qty_type),
    ("rebacktest", Json.bool false),
    ("sub", Json.arr []),
    ("effect_all_sub_strategies", Json.bool false) ]

/-- Outcome of response.json(): either a parsed JSON value, or the parse
raised (non-JSON body); excText is str() of the raised exception. -/
inductive BodyParse where
  | parsed (j : Json)
  | failed (excText : String)

/-- An HTTP response as observed by the tool: status code, the result of
response.json(), and response.text. -/
structure HttpResponse where
  status : Nat
  body : BodyParse
  text : String

/-- Result of the transport call (client.post plus body processing).
raised covers every exception the transport can raise (timeouts,
connection faults); httpStatusError models the dead except branch of
src/main.py lines 314-325 for httpx.HTTPStatusError, which client.post
itself never raises since raise_for_status is not called in
create_scalping_strategy. -/
inductive TransportResult where
  | ok (resp : HttpResponse)
  | httpStatusError (resp : HttpResponse) (excText : String)
  | raised (excText : String)

/-- Error-message extraction of the non-200 branch (src/main.py lines
264-270): error_data.get("message", error_data.get("error",
response.text)); a parse failure, or a .get on a non-dict body
(AttributeError), falls back to response.text. -/
def extractHttpErrorMsg (b : BodyParse) (text : String) : Json :=
  match b with
  | BodyParse.parsed (Json.obj fs) =>
      pyDictGet fs "message" (pyDictGet fs "error" (Json.str text))
  | _ => Json.str text

/-- Python str() of the AttributeError raised by value.get(...) on a
non-dict value (src/main.py line 296 when the 200 body is not a dict or
list). -/
def pyTypeName : Json → String
  | Json.null => "NoneType"
  | Json.bool _ => "bool"
  | Json.num _ => "int"
  | Json.str _ => "str"
  | Json.arr _ => "list"
  | Json.obj _ => "dict"

/-- The response handling and tool-boundary result of
create_scalping_strategy (src/main.py lines 249-334), as the returned
dict (entries in source order). The payload posted does not influence
which branch is taken; the strategy_name parameter appears in the
success messages. -/
def create_scalping_strategy (p : CreateParams) (tr : TransportResult) :
    List (String × Json) :=
  match tr with
  | TransportResult.ok resp =>
    if resp.status ≠ 200 then
      let error_msg := extractHttpErrorMsg resp.body resp.text
      [ ("status", Json.str "error"),
        ("message", Json.str ("API returned error: " ++ pyStr error_msg)) ]
    else
      match resp.body with
      | BodyParse.parsed (Json.arr xs) =>
          let strategy_id :=
            match xs with
            | Json.obj fs :: _ => pyDictGet fs "id" (Json.str "N/A")
            | _ => Json.str "N/A"
          [ ("status", Json.str "success"),
            ("message", Json.str ("Strategy \x27" ++ p.strategy_name ++ "\x27 created successfully!")),
            ("strategy_id", strategy_id),
            ("details", Json.arr xs) ]
      | BodyParse.parsed (Json.obj fs) =>
          if (pyDictGet fs "error" Json.null).truthy
              || isErrorLiteral (pyDictGet fs "status" Json.null) then
            [ ("status", Json.str "error"),
              ("message", pyDictGet fs "message" (pyDictGet fs "error" (Json.str "Unknown API error"))) ]
          else
            [ ("status", Json.str "success"),
              ("message", Json.str ("Strategy \x27" ++ p.strategy_name ++ "\x27 created successfully!")),
              ("strategy_id", pyDictGet fs "id" (Json.str "")) ]
      | BodyParse.parsed v =>
          [ ("status", Json.str "error"),
            ("message", Json.str ("Failed to create strategy: \x27" ++ pyTypeName v
              ++ "\x27 object has no attribute \x27get\x27")) ]
      | BodyParse.failed excText =>
          [ ("status", Json.str "error"),
            ("message", Json.str ("Failed to create strategy: " ++ excText)) ]
  | TransportResult.httpStatusError resp excText =>
      let error_msg :=
        match resp.body with
        | BodyParse.parsed (Json.obj fs) =>
            pyDictGet fs "message" (pyDictGet fs "error" (Json.str excText))
        | _ => Json.str resp.text
      [ ("status", Json.str "error"),
        ("message", Json.str ("API error: " ++ pyStr error_msg)) ]
  | TransportResult.raised excText =>
      [ ("status", Json.str "error"),
        ("message", Json.str ("Failed to create strategy: " ++ excText)) ]

/-- The outcome model of the spec (SubmissionOutcome): one submission
attempt is classified as a success, a remote-reported error, or a
transport/tool failure. -/
inductive SubmissionOutcome where
  | success (identifier : Json)
  | remoteError (message : Json)
  | transportError (message : String)
deriving Repr

/-- The Response Normalizer: the classification performed by
create_scalping_strategy (src/main.py lines 262-334) with, per branch,
the code's own error_msg / strategy_id value before tool-boundary
formatting. The branch structure is identical to
create_scalping_strategy. -/
def classify (tr : TransportResult) : SubmissionOutcome :=
  match tr with
  | TransportResult.ok resp =>
    if resp.status ≠ 200 then
      SubmissionOutcome.remoteError (extractHttpErrorMsg resp.body resp.text)
    else
      match resp.body with
      | BodyParse.parsed (Json.arr xs) =>
          SubmissionOutcome.success
            (match xs with
             | Json.obj fs :: _ => pyDictGet fs "id" (Json.str "N/A")
             | _ => Json.str "N/A")
      | BodyParse.parsed (Json.obj fs) =>
          if (pyDictGet fs "error" Json.null).truthy
              || isErrorLiteral (pyDictGet fs "status" Json.null) then
            SubmissionOutcome.remoteError
              (pyDictGet fs "message" (pyDictGet fs "error" (Json.str "Unknown API error")))
          else
            SubmissionOutcome.success (pyDictGet fs "id" (Json.str ""))
      | BodyParse.parsed v =>
          SubmissionOutcome.transportError ("Failed to create strategy: \x27" ++ pyTypeName v
            ++ "\x27 object has no attribute \x27get\x27")
      | BodyParse.failed excText =>
          SubmissionOutcome.transportError ("Failed to create strategy: " ++ excText)
  | TransportResult.httpStatusError resp excText =>
      SubmissionOutcome.remoteError
        (match resp.body with
         | BodyParse.parsed (Json.obj fs) =>
             pyDictGet fs "message" (pyDictGet fs "error" (Json.str excText))
         | _ => Json.str resp.text)
  | TransportResult.raised excText =>
      SubmissionOutcome.transportError ("Failed to create strategy: " ++ excText)

/-- The parameter set of the get_my_strategies tool
(src/main.py lines 343-350), names and defaults as in the source. -/
structure QueryParams where
  skip : Int := 0
  take : Int := 10
  search : String := ""
  symbols : Option (List String) := none
  trading_type : String := "All"
  sort_by : String := "newest"

/-- The query payload compiler of get_my_strategies (src/main.py lines
367-377). The symbols entry is Python "symbols or []": the caller list
when it is truthy (present and non-empty), the empty list otherwise. -/
def buildQueryPayload (q : QueryParams) : List (String × Json) :=
  [ ("skip", Json.num q.skip),
    ("take", Json.num q.take),
    ("search", Json.str q.search),
    ("symbols", Json.arr
      (match q.symbols with
       | none => []
       | some l => if l.isEmpty then [] else l.map Json.str)),
    ("tradingType", Json.str q.trading_type),
    ("strategyMasterIds", Json.arr []),
    ("strategyMaster", Json.obj
      [ ("id", Json.str ""),
        ("strategy_name", Json.str "All Plugins"),
        ("selected", Json.bool true) ]),
    ("AuthorIds", Json.arr []),
    ("sortBy", Json.str q.sort_by) ]

/-- Claim C1: the Response Normalizer classifies each transport result
into exactly one outcome: a 500-status body with message "x" yields
RemoteError "x"; a 200-status body with error "x" yields RemoteError
"x"; a 200-status bare list whose first element has id 7 yields Success
with identifier 7; and a 200-status mapping with id 7 yields Success
with identifier 7. -/
theorem response_normalizer_totality :
    classify (TransportResult.ok
        ⟨500, BodyParse.parsed (Json.obj [("message", Json.str "x")]), "raw"⟩)
      = SubmissionOutcome.remoteError (Json.str "x")
    ∧ classify (TransportResult.ok
        ⟨200, BodyParse.parsed (Json.obj [("error", Json.str "x")]), "raw"⟩)
      = SubmissionOutcome.remoteError (Json.str "x")
    ∧ classify (TransportResult.ok
        ⟨200, BodyParse.parsed (Json.arr [Json.obj [("id", Json.num 7)]]), "raw"⟩)
      = SubmissionOutcome.success (Json.num 7)
    ∧ classify (TransportResult.ok
        ⟨200, BodyParse.parsed (Json.obj [("id", Json.num 7)]), "raw"⟩)
      = SubmissionOutcome.success (Json.num 7) :=
  ⟨rfl, rfl, rfl, rfl⟩

/-- Claim C2: the compiled mix_name is the space-separated concatenation
of symbol, segment and exchange when the segment is "EQ", and of symbol,
segment, contract and expiry for any other segment. -/
theorem mix_name_segment_rule (p : CreateParams) :
    (buildPayload p).lookup "mix_name" = some (Json.str
      (if p.segment = "EQ" then
        p.symbol ++ " " ++ p.segment ++ " " ++ p.exchange
      else
        p.symbol ++ " " ++ p.segment ++ " " ++ p.contract ++ " " ++ p.expiry)) :=
  rfl

/-- Claim C3: compiling with only the alias avg_points set to v yields
the same record as compiling with only the canonical averaging_points
set to v, all other inputs equal; a present alias overrides the
canonical value outright. -/
theorem alias_points_equivalence (p : CreateParams) (v : Int) :
    buildPayload { p with avg_points := some v }
      = buildPayload { p with avg_points := none, averaging_points := v }
    ∧ resolveAveragingPoints { p with avg_points := some v } = v :=
  ⟨rfl, rfl⟩

/-- Claim C5: the payload compiler is a pure function of the resolved
intent: compiling the same input twice yields the identical record, and
the identity placeholder field id is always the empty string. -/
theorem payload_compiler_pure_id_empty (p : CreateParams) :
    buildPayload p = buildPayload p
    ∧ (buildPayload p).lookup "id" = some (Json.str "") :=
  ⟨rfl, rfl⟩

/-- Claim C9: for every input, the compiled record's target field is 0
and the caller-supplied target_points value is written to
intraday_target, regardless of the intraday flag. -/
theorem target_zero_intraday_target (p : CreateParams) :
    (buildPayload p).lookup "target" = some (Json.num 0)
    ∧ (buildPayload p).lookup "intraday_target" = some (Json.num p.target_points) :=
  ⟨rfl, rfl⟩

/-- Claim C7: compiling a query with the symbols filter unset produces
an empty list for the symbols field of the wire record, never a null or
absent field. -/
theorem query_symbols_default_empty_list (skip take : Int)
    (search trading_type sort_by : String) :
    (buildQueryPayload { skip := skip, take := take, search := search,
                         symbols := none, trading_type := trading_type,
                         sort_by := sort_by }).lookup "symbols" = some (Json.arr [])
    ∧ Json.arr [] ≠ Json.null :=
  ⟨rfl, fun h => Json.noConfusion h⟩

/-- Claim C6: when the transport raises (timeouts included), the tool
returns a dict with status "error" whose message contains "Failed to
create strategy", and every transport result — every failure kind
included — yields a status/message dict rather than an escaping
exception. -/
theorem transport_exception_uniform_error :
    (∀ (p : CreateParams) (e : String),
      create_scalping_strategy p (TransportResult.raised e)
        = [ ("status", Json.str "error"),
            ("message", Json.str ("Failed to create strategy: " ++ e)) ])
    ∧ (∀ (p : CreateParams) (tr : TransportResult),
      (create_scalping_strategy p tr).lookup "status" = some (Json.str "error")
      ∨ (create_scalping_strategy p tr).lookup "status" = some (Json.str "success")) := by
  constructor
  · intro p e
    rfl
  · intro p tr
    cases tr with
    | ok resp =>
      obtain ⟨st, b, t⟩ := resp
      by_cases h : st = 200
      · subst h
        rcases b with j | e
        · cases j with
          | null => left; rfl
          | bool x => left; rfl
          | num n => left; rfl
          | str s => left; rfl
          | arr xs => right; rfl
          | obj fs =>
            cases hc : (pyDictGet fs "error" Json.null).truthy
                || isErrorLiteral (pyDictGet fs "status" Json.null) with
            | true => left; simp [create_scalping_strategy, hc, List.lookup]
            | false => right; simp [create_scalping_strategy, hc, List.lookup]
        · left; rfl
      · left
        simp [create_scalping_strategy, h, List.lookup]
    | httpStatusError resp e =>
      left; rfl
    | raised e =>
      left; rfl

/-- Claim C8: the end-to-end scenario: with strategy_name "RELIANCE
Scalping", symbol RELIANCE, exchange NSE, segment EQ, averaging and
target points 100, the compiled record has mix_name "RELIANCE EQ NSE"
and short_description "BUY RELIANCE at every 100 points", and a
200-status response with body id "abc123" makes the tool return status
"success" with strategy_id "abc123". -/
theorem end_to_end_success_scenario :
    (buildPayload { strategy_name := "RELIANCE Scalping", symbol := "RELIANCE",
                    exchange := "NSE", segment := "EQ", averaging_points := 100,
                    target_points := 100 }).lookup "mix_name"
      = some (Json.str "RELIANCE EQ NSE")
    ∧ (buildPayload { strategy_name := "RELIANCE Scalping", symbol := "RELIANCE",
                      exchange := "NSE", segment := "EQ", averaging_points := 100,
                      target_points := 100 }).lookup "short_description"
      = some (Json.str "BUY RELIANCE at every 100 points")
    ∧ create_scalping_strategy
        { strategy_name := "RELIANCE Scalping", symbol := "RELIANCE",
          exchange := "NSE", segment := "EQ", averaging_points := 100,
          target_points := 100 }
        (TransportResult.ok
          ⟨200, BodyParse.parsed (Json.obj [("id", Json.str "abc123")]), ""⟩)
      = [ ("status", Json.str "success"),
          ("message", Json.str "Strategy \x27RELIANCE Scalping\x27 created successfully!"),
          ("strategy_id", Json.str "abc123") ] :=
  ⟨rfl, rfl, rfl⟩

/-- Claim C10: a 200-status mapping whose error key holds a falsy value
and whose status field is not the string "error" is classified as
Success, not RemoteError: the error-flag check tests truthiness of the
error value, not presence of the key. -/
theorem error_flag_truthiness (fs : List (String × Json)) (v : Json) (t : String)
    (h1 : fs.lookup "error" = some v) (h2 : v.truthy = false)
    (h3 : pyDictGet fs "status" Json.null ≠ Json.str "error") :
    classify (TransportResult.ok ⟨200, BodyParse.parsed (Json.obj fs), t⟩)
      = SubmissionOutcome.success (pyDictGet fs "id" (Json.str "")) := by
  have hc : (pyDictGet fs "error" Json.null).truthy = false := by
    simp [pyDictGet, h1, h2]
  have hs : isErrorLiteral (pyDictGet fs "status" Json.null) = false := by
    cases hv : pyDictGet fs "status" Json.null with
    | null => rfl
    | bool x => rfl
    | num n => rfl
    | arr xs => rfl
    | obj gs => rfl
    | str s =>
      have hne : s ≠ "error" := by
        intro he
        exact h3 (by rw [hv, he])
      simp [isErrorLiteral, hne]
  simp [classify, hc, hs]

/-- Witness for C10 at a concrete input: error key present with the
falsy empty string, id 7, classified as Success 7. -/
theorem error_flag_truthiness_witness :
    classify (TransportResult.ok
        ⟨200, BodyParse.parsed
          (Json.obj [("error", Json.str ""), ("id", Json.num 7)]), ""⟩)
      = SubmissionOutcome.success (Json.num 7) :=
  error_flag_truthiness [("error", Json.str ""), ("id", Json.num 7)]
    (Json.str "") "" rfl rfl
    (fun h => Json.noConfusion h)

/-- Counterexample to claim C4 at status 500 with body message "x": the
tool returns only a status and a message entry; the message is
"API returned error: x", not the remote message "x" verbatim, and the
status code 500 appears nowhere in the returned dict. -/
theorem http_error_status_code_not_surfaced :
    create_scalping_strategy { strategy_name := "s", symbol := "RELIANCE" }
        (TransportResult.ok
          ⟨500, BodyParse.parsed (Json.obj [("message", Json.str "x")]), "raw"⟩)
      = [ ("status", Json.str "error"),
          ("message", Json.str "API returned error: x") ]
    ∧ "API returned error: x" ≠ "x" :=
  ⟨rfl, by decide⟩

/-- Claim C4 as amended: when the observed status code is not 200, the
tool returns status "error" with message "API returned error: "
followed by the message parsed from the body's message or error key,
falling back to raw text; the status code itself is not part of the
returned outcome, and the parsed message is prefixed rather than
surfaced verbatim. -/
theorem http_error_branch_message (p : CreateParams) (st : Nat) (b : BodyParse)
    (t : String) (h : st ≠ 200) :
    create_scalping_strategy p (TransportResult.ok ⟨st, b, t⟩)
      = [ ("status", Json.str "error"),
          ("message", Json.str ("API returned error: "
            ++ pyStr (extractHttpErrorMsg b t))) ] := by
  simp [create_scalping_strategy, h]

/-- Witness for the amended C4 at status 500 with body message "x". -/
theorem http_error_branch_message_witness :
    create_scalping_strategy { strategy_name := "s", symbol := "RELIANCE" }
        (TransportResult.ok
          ⟨500, BodyParse.parsed (Json.obj [("error", Json.str "y")]), "raw"⟩)
      = [ ("status", Json.str "error"),
          ("message", Json.str "API returned error: y") ] :=
  http_error_branch_message { strategy_name := "s", symbol := "RELIANCE" }
    500 (BodyParse.parsed (Json.obj [("error", Json.str "y")])) "raw"
    (by decide)
